import Mathlib

/-!
Shallow embedding of `src/polars_api_compat/pandas/column_object.py`
(the `Series` adapter of the dataframe-API compatibility shim) together
with a model of the pandas backend operations it delegates to.

Modelling conventions:
* A pandas column slot is `Slot Int`: an ordinary value (`val`), a
  floating NaN stored in the data buffer (`nan`), or the backend's
  missing-value marker (`null`, i.e. `pd.NA` / `NaT`; for plain numpy
  float columns the missing marker is NaN itself, so `null` does not
  occur there).  Numeric payloads are modelled as integers: every claim
  under test evaluates the shim on integer-valued data, and float
  rounding plays no role in any of them.
* pandas dtypes are the closed set actually handled by the shim's dtype
  tables (`NUMPY_MAPPING` keys and values).  `is_extension_array_dtype`
  is true exactly on the nullable/extension dtypes.
* `isna` on an extension (masked / arrow-backed) column reports the
  missing-value mask only: a NaN sitting in the data buffer of a
  nullable column is NOT reported (pandas `BaseMaskedArray.isna`
  returns the mask; `ArrowExtensionArray.isna` uses `is_null` without
  `nan_is_null`).  On a plain numpy column NaN is the missing marker
  and is reported.
* Python exceptions are modelled with `Except PyError`.
-/

inductive Slot (α : Type) where
  | val (a : α)
  | nan
  | null
deriving DecidableEq, Repr

inductive PyError where
  | notImplementedError (msg : String)
  | assertionError (msg : String)
  | valueError (msg : String)
deriving DecidableEq, Repr

/-- The pandas dtypes the shim's tables know about: the plain numpy
dtypes and their nullable (extension) counterparts, exactly the keys
and values of `NUMPY_MAPPING` in the source. -/
inductive PandasDType where
  | int8 | int16 | int32 | int64
  | uint8 | uint16 | uint32 | uint64
  | float32 | float64 | bool_
  | nullableInt8 | nullableInt16 | nullableInt32 | nullableInt64
  | nullableUInt8 | nullableUInt16 | nullableUInt32 | nullableUInt64
  | nullableFloat32 | nullableFloat64 | nullableBoolean
deriving DecidableEq, Repr

/-- `pandas.api.types.is_extension_array_dtype`, restricted to the
closed dtype set above: true exactly on the nullable dtypes. -/
def PandasDType.isExtensionArrayDtype : PandasDType → Bool
  | .nullableInt8 | .nullableInt16 | .nullableInt32 | .nullableInt64 => true
  | .nullableUInt8 | .nullableUInt16 | .nullableUInt32 | .nullableUInt64 => true
  | .nullableFloat32 | .nullableFloat64 | .nullableBoolean => true
  | _ => false

/-- The standard dtype vocabulary of the dataframe API
(`Int8..UInt64`, `Float32/64`, `Boolean`, and the nullable variants),
per the spec's data model. -/
inductive StandardDType where
  | int8 | int16 | int32 | int64
  | uint8 | uint16 | uint32 | uint64
  | float32 | float64 | boolean
  | nullableInt8 | nullableInt16 | nullableInt32 | nullableInt64
  | nullableUInt8 | nullableUInt16 | nullableUInt32 | nullableUInt64
  | nullableFloat32 | nullableFloat64 | nullableBoolean
deriving DecidableEq, Repr

/-- Modelled from the spec: `map_standard_dtype_to_pandas_dtype` lives
in `polars_api_compat/pandas/__init__.py`, which is not among the
provided sources.  Per the spec (§4.1) it is a pure symbol-table lookup
mapping each standard dtype to exactly one backend-native dtype;
the plain/nullable split follows the `NUMPY_MAPPING` table of the
source file. -/
def map_standard_dtype_to_pandas_dtype : StandardDType → PandasDType
  | .int8 => .int8
  | .int16 => .int16
  | .int32 => .int32
  | .int64 => .int64
  | .uint8 => .uint8
  | .uint16 => .uint16
  | .uint32 => .uint32
  | .uint64 => .uint64
  | .float32 => .float32
  | .float64 => .float64
  | .boolean => .bool_
  | .nullableInt8 => .nullableInt8
  | .nullableInt16 => .nullableInt16
  | .nullableInt32 => .nullableInt32
  | .nullableInt64 => .nullableInt64
  | .nullableUInt8 => .nullableUInt8
  | .nullableUInt16 => .nullableUInt16
  | .nullableUInt32 => .nullableUInt32
  | .nullableUInt64 => .nullableUInt64
  | .nullableFloat32 => .nullableFloat32
  | .nullableFloat64 => .nullableFloat64
  | .nullableBoolean => .nullableBoolean

/-- Modelled from the spec: `map_pandas_dtype_to_standard_dtype` (same
missing module).  Per the spec (§4.1) it is the inverse lookup over the
same closed set; an unmapped native dtype would fail, but every member
of `PandasDType` is mapped. -/
def map_pandas_dtype_to_standard_dtype : PandasDType → StandardDType
  | .int8 => .int8
  | .int16 => .int16
  | .int32 => .int32
  | .int64 => .int64
  | .uint8 => .uint8
  | .uint16 => .uint16
  | .uint32 => .uint32
  | .uint64 => .uint64
  | .float32 => .float32
  | .float64 => .float64
  | .bool_ => .boolean
  | .nullableInt8 => .nullableInt8
  | .nullableInt16 => .nullableInt16
  | .nullableInt32 => .nullableInt32
  | .nullableInt64 => .nullableInt64
  | .nullableUInt8 => .nullableUInt8
  | .nullableUInt16 => .nullableUInt16
  | .nullableUInt32 => .nullableUInt32
  | .nullableUInt64 => .nullableUInt64
  | .nullableFloat32 => .nullableFloat32
  | .nullableFloat64 => .nullableFloat64
  | .nullableBoolean => .nullableBoolean

/-- One wrapped pandas column: the adapter's `_name` together with the
native series (its dtype and its slots).  `nativeDtype` models
`self._series.dtype`. -/
structure Series where
  name : String
  nativeDtype : PandasDType
  data : List (Slot Int)
deriving DecidableEq, Repr

/-- A wrapped boolean-valued pandas column, as returned by `is_null`
and `is_nan` (numpy bool result, no missing slots). -/
structure BoolSeries where
  name : String
  data : List Bool
deriving DecidableEq, Repr

/-- pandas `isna` on one slot.  `ext` is `is_extension_array_dtype` of
the column: on an extension column only the missing-value mask is
reported (a data-buffer NaN is not missing); on a plain column NaN is
the missing marker. -/
def pdIsnaSlot (ext : Bool) : Slot Int → Bool
  | .val _ => false
  | .nan => !ext
  | .null => true

/-- pandas `(ser != ser).fillna(False)` on one slot of an extension
column: the self-inequality test is true exactly on a data-buffer NaN;
on a masked slot the comparison propagates `NA`, which `fillna(False)`
turns into `False`. -/
def pdSelfNeFillnaFalseSlot : Slot Int → Bool
  | .val _ => false
  | .nan => true
  | .null => false

/-- `Series.is_null` (source lines 317-319): delegates to `ser.isna()`. -/
def Series.is_null (c : Series) : BoolSeries :=
  { name := c.name
    data := c.data.map (pdIsnaSlot c.nativeDtype.isExtensionArrayDtype) }

/-- `Series.is_nan` (source lines 321-325): on an extension column the
self-inequality test `(ser != ser).fillna(False)`, otherwise `ser.isna()`. -/
def Series.is_nan (c : Series) : BoolSeries :=
  if c.nativeDtype.isExtensionArrayDtype then
    { name := c.name, data := c.data.map pdSelfNeFillnaFalseSlot }
  else
    { name := c.name, data := c.data.map (pdIsnaSlot false) }

/-- A binary-operation right-hand operand: a scalar or another wrapped
column. -/
inductive Operand where
  | scalar (v : Int)
  | column (s : Series)
deriving DecidableEq, Repr

/-- The raw comparand extracted by validation: the scalar itself, or
the other column's native data. -/
inductive Comparand where
  | scalar (v : Int)
  | arr (l : List (Slot Int))
deriving DecidableEq, Repr

/-- Modelled from the spec: `validate_column_comparand` lives in
`polars_api_compat/utils.py`, which is not among the provided sources.
Per the spec (§4.4) it passes a scalar through, unwraps a column
operand to its raw native value after checking index/shape
compatibility with the left-hand column, and fails with a
`ValueError`-class error on a shape mismatch. -/
def validate_column_comparand (c : Series) (other : Operand) :
    Except PyError Comparand :=
  match other with
  | .scalar v => .ok (.scalar v)
  | .column s =>
      if s.data.length = c.data.length then .ok (.arr s.data)
      else .error (.valueError "lengths mismatch")

/-- pandas `ser.fillna(value)` with a scalar on a plain column (also
the behaviour of masked `fillna` on an extension column): every
`isna`-true slot is replaced by the value. -/
def pdFillnaSlot (ext : Bool) (v : Int) (s : Slot Int) : Slot Int :=
  if pdIsnaSlot ext s then .val v else s

/-- `Series.fill_null` (source lines 379-393), with a scalar fill
value: on an extension column the mask is
`ser.isna() & ~(ser != ser).fillna(False)` — missing-marker slots but
not data-buffer NaN ones — and `ser.where(~mask, value)` replaces
exactly the masked slots; on a plain column it is `ser.fillna(value)`. -/
def Series.fill_null (c : Series) (value : Operand) : Except PyError Series := do
  let v ← validate_column_comparand c value
  match v with
  | .scalar v =>
      if c.nativeDtype.isExtensionArrayDtype then
        let mask := fun s => pdIsnaSlot true s && !pdSelfNeFillnaFalseSlot s
        pure { c with data := c.data.map (fun s => if mask s then .val v else s) }
      else
        pure { c with data := c.data.map (pdFillnaSlot false v) }
  | .arr l =>
      if c.nativeDtype.isExtensionArrayDtype then
        let mask := fun s => pdIsnaSlot true s && !pdSelfNeFillnaFalseSlot s
        pure { c with
               data := (c.data.zip l).map
                 (fun p => if mask p.1 then p.2 else p.1) }
      else
        pure { c with
               data := (c.data.zip l).map
                 (fun p => if pdIsnaSlot false p.1 then p.2 else p.1) }

/-- Elementwise lifting of an integer operation to slots, with the
backend's propagation rules: a missing marker propagates, otherwise a
NaN propagates, otherwise the operation is applied to the payloads. -/
def slotBin (f : Int → Int → Int) : Slot Int → Slot Int → Slot Int
  | .null, _ => .null
  | _, .null => .null
  | .nan, _ => .nan
  | _, .nan => .nan
  | .val a, .val b => .val (f a b)

/-- The backend's vectorised binary operation over a column and a
validated comparand: a scalar broadcasts, an array combines
positionally. -/
def zipComparand (f : Int → Int → Int) (data : List (Slot Int)) :
    Comparand → List (Slot Int)
  | .scalar v => data.map (fun s => slotBin f s (.val v))
  | .arr l => List.zipWith (slotBin f) data l

/-- `Series.__sub__` (source lines 187-190): validate the operand and
delegate to the backend's vectorised subtraction, keeping the name. -/
def Series.sub (c : Series) (other : Operand) : Except PyError Series := do
  let o ← validate_column_comparand c other
  pure { c with data := zipComparand (fun a b => a - b) c.data o }

/-- `Series.__mul__` (source lines 195-198). -/
def Series.mul (c : Series) (other : Operand) : Except PyError Series := do
  let o ← validate_column_comparand c other
  pure { c with data := zipComparand (fun a b => a * b) c.data o }

/-- `Series.__rsub__` (source lines 192-193): `-1 * self.__sub__(other)`,
where the Python product `int * Series` dispatches through
`Series.__rmul__` to `Series.__mul__` with the scalar `-1`. -/
def Series.rsub (c : Series) (other : Operand) : Except PyError Series := do
  let s ← Series.sub c other
  Series.mul s (.scalar (-1))

/-- `Series.__rtruediv__` (source lines 208-209): unconditionally
`raise NotImplementedError`, before touching the wrapped value. -/
def Series.rtruediv (_c : Series) (_other : Operand) : Except PyError Series :=
  .error (.notImplementedError "")

/-- `Series.__rfloordiv__` (source lines 216-217): unconditionally
`raise NotImplementedError`. -/
def Series.rfloordiv (_c : Series) (_other : Operand) : Except PyError Series :=
  .error (.notImplementedError "")

/-- `Series.__rpow__` (source lines 224-225): unconditionally
`raise NotImplementedError`. -/
def Series.rpow (_c : Series) (_other : Operand) : Except PyError Series :=
  .error (.notImplementedError "")

/-- `Series.__rmod__` (source lines 232-233): unconditionally
`raise NotImplementedError`. -/
def Series.rmod (_c : Series) (_other : Operand) : Except PyError Series :=
  .error (.notImplementedError "")

/-- The spec-side description of reflected subtraction, for comparison
with `Series.rsub`: the elementwise difference `v - c` with the
operand on the left, under the same comparand validation. -/
def specReversedDifference (c : Series) (other : Operand) :
    Except PyError (List (Slot Int)) := do
  let o ← validate_column_comparand c other
  match o with
  | .scalar v => pure (c.data.map (fun s => slotBin (fun a b => a - b) (.val v) s))
  | .arr l => pure (List.zipWith (fun x s => slotBin (fun a b => a - b) x s) l c.data)

/-- Map over the payload of a slot, leaving NaN and the missing marker
untouched. -/
def Slot.mapVal (f : α → β) : Slot α → Slot β
  | .val a => .val (f a)
  | .nan => .nan
  | .null => .null

/-- True on a data-buffer NaN slot. -/
def isNanSlot : Slot Int → Bool
  | .nan => true
  | _ => false

/-- The slots a backend reduction actually aggregates: `skipna` is the
backend's default, so `isna`-true slots are dropped (for an extension
column that is the missing-marker slots; for a plain column the NaN
ones). -/
def effectiveSlots (ext : Bool) (l : List (Slot Int)) : List (Slot Int) :=
  l.filter (fun s => !pdIsnaSlot ext s)

/-- The ordinary payloads of a slot list. -/
def slotVals (l : List (Slot Int)) : List Int :=
  l.filterMap (fun s => match s with | .val a => some a | _ => none)

/-- Backend truthiness of a non-missing slot (NaN is truthy). -/
def slotTruthy : Slot Int → Bool
  | .val a => a != 0
  | _ => true

/-- pandas `ser.any()`. -/
def pdAny (ext : Bool) (l : List (Slot Int)) : Bool :=
  (effectiveSlots ext l).any slotTruthy

/-- pandas `ser.all()`. -/
def pdAll (ext : Bool) (l : List (Slot Int)) : Bool :=
  (effectiveSlots ext l).all slotTruthy

/-- pandas `ser.sum()`: sum of the aggregated slots; a data-buffer NaN
among them poisons the result. -/
def pdSum (ext : Bool) (l : List (Slot Int)) : Slot Int :=
  let eff := effectiveSlots ext l
  if eff.any isNanSlot then .nan else .val ((slotVals eff).foldl (· + ·) 0)

/-- pandas `ser.prod()`. -/
def pdProd (ext : Bool) (l : List (Slot Int)) : Slot Int :=
  let eff := effectiveSlots ext l
  if eff.any isNanSlot then .nan else .val ((slotVals eff).foldl (· * ·) 1)

/-- The missing result a reduction returns on an empty aggregate:
`pd.NA` for an extension column, NaN otherwise. -/
def emptyReduction (ext : Bool) : Slot Int :=
  if ext then .null else .nan

/-- pandas `ser.min()`. -/
def pdMin (ext : Bool) (l : List (Slot Int)) : Slot Int :=
  let eff := effectiveSlots ext l
  if eff.any isNanSlot then .nan
  else
    match slotVals eff with
    | [] => emptyReduction ext
    | x :: xs => .val (xs.foldl min x)

/-- pandas `ser.max()`. -/
def pdMax (ext : Bool) (l : List (Slot Int)) : Slot Int :=
  let eff := effectiveSlots ext l
  if eff.any isNanSlot then .nan
  else
    match slotVals eff with
    | [] => emptyReduction ext
    | x :: xs => .val (xs.foldl max x)

/-- pandas `ser.mean()`, with an exact rational result. -/
def pdMean (ext : Bool) (l : List (Slot Int)) : Slot ℚ :=
  let eff := effectiveSlots ext l
  if eff.any isNanSlot then .nan
  else
    match slotVals eff with
    | [] => (emptyReduction ext).mapVal (fun (a : ℤ) => (a : ℚ))
    | vals => .val ((vals.foldl (· + ·) 0 : ℤ) / (vals.length : ℚ))

/-- Insertion sort on integers (ascending), used for the median. -/
def insertSorted (a : Int) : List Int → List Int
  | [] => [a]
  | b :: rest => if a ≤ b then a :: b :: rest else b :: insertSorted a rest

/-- Ascending sort of a list of integers. -/
def sortInts : List Int → List Int
  | [] => []
  | a :: rest => insertSorted a (sortInts rest)

/-- pandas `ser.median()`: middle of the sorted aggregate, averaging
the two middle elements on an even count. -/
def pdMedian (ext : Bool) (l : List (Slot Int)) : Slot ℚ :=
  let eff := effectiveSlots ext l
  if eff.any isNanSlot then .nan
  else
    let vals := sortInts (slotVals eff)
    let n := vals.length
    if n = 0 then (emptyReduction ext).mapVal (fun (a : ℤ) => (a : ℚ))
    else if n % 2 = 1 then .val ((vals.getD (n / 2) 0 : ℤ) : ℚ)
    else .val (((vals.getD (n / 2 - 1) 0 + vals.getD (n / 2) 0 : ℤ) : ℚ) / 2)

/-- pandas `ser.var(ddof)`: sum of squared deviations from the mean
over `n - ddof`; degenerate denominators give NaN. -/
def pdVar (ext : Bool) (ddof : ℚ) (l : List (Slot Int)) : Slot ℚ :=
  let eff := effectiveSlots ext l
  if eff.any isNanSlot then .nan
  else
    let vals := slotVals eff
    let n : ℚ := vals.length
    if n - ddof ≤ 0 ∨ vals.length = 0 then .nan
    else
      let mu : ℚ := (vals.foldl (· + ·) 0 : ℤ) / n
      .val ((vals.foldl (fun acc a => acc + ((a : ℚ) - mu) ^ 2) 0) / (n - ddof))

/-- pandas `ser.std(ddof)`: the square root of the variance. -/
noncomputable def pdStd (ext : Bool) (ddof : ℚ) (l : List (Slot Int)) : Slot ℝ :=
  (pdVar ext ddof l).mapVal (fun (q : ℚ) => Real.sqrt (q : ℝ))

/-- pandas `ser.nunique()`: number of distinct non-missing values; a
data-buffer NaN of a nullable column counts as one value. -/
def pdNunique (ext : Bool) (l : List (Slot Int)) : Nat :=
  let eff := effectiveSlots ext l
  (slotVals eff).dedup.length + (if eff.any isNanSlot then 1 else 0)

/-- `Series.any` (source lines 248-250): delegates to `ser.any()`;
the `skip_nulls` argument is accepted and ignored. -/
def Series.any (c : Series) (_skip_nulls : Bool) : Bool :=
  pdAny c.nativeDtype.isExtensionArrayDtype c.data

/-- `Series.all` (source lines 252-254). -/
def Series.all (c : Series) (_skip_nulls : Bool) : Bool :=
  pdAll c.nativeDtype.isExtensionArrayDtype c.data

/-- `Series.min` (source lines 256-258). -/
def Series.min (c : Series) (_skip_nulls : Bool) : Slot Int :=
  pdMin c.nativeDtype.isExtensionArrayDtype c.data

/-- `Series.max` (source lines 260-262). -/
def Series.max (c : Series) (_skip_nulls : Bool) : Slot Int :=
  pdMax c.nativeDtype.isExtensionArrayDtype c.data

/-- `Series.sum` (source lines 264-266). -/
def Series.sum (c : Series) (_skip_nulls : Bool) : Slot Int :=
  pdSum c.nativeDtype.isExtensionArrayDtype c.data

/-- `Series.prod` (source lines 268-270). -/
def Series.prod (c : Series) (_skip_nulls : Bool) : Slot Int :=
  pdProd c.nativeDtype.isExtensionArrayDtype c.data

/-- `Series.median` (source lines 272-274). -/
def Series.median (c : Series) (_skip_nulls : Bool) : Slot ℚ :=
  pdMedian c.nativeDtype.isExtensionArrayDtype c.data

/-- `Series.mean` (source lines 276-278). -/
def Series.mean (c : Series) (_skip_nulls : Bool) : Slot ℚ :=
  pdMean c.nativeDtype.isExtensionArrayDtype c.data

/-- `Series.std` (source lines 280-289): delegates to
`ser.std(ddof=correction)`; `skip_nulls` is accepted and ignored. -/
noncomputable def Series.std (c : Series) (correction : ℚ) (_skip_nulls : Bool) : Slot ℝ :=
  pdStd c.nativeDtype.isExtensionArrayDtype correction c.data

/-- `Series.var` (source lines 291-300). -/
def Series.var (c : Series) (correction : ℚ) (_skip_nulls : Bool) : Slot ℚ :=
  pdVar c.nativeDtype.isExtensionArrayDtype correction c.data

/-- `Series.n_unique` (source lines 305-313): delegates to
`ser.nunique()`. -/
def Series.n_unique (c : Series) (_skip_nulls : Bool) : Nat :=
  pdNunique c.nativeDtype.isExtensionArrayDtype c.data

/-- pandas `ser.cummax()` with the default `skipna`: a running maximum
over the ordinary values; NaN and missing slots are emitted unchanged
and do not update the running maximum. -/
def pdCummax (acc : Option Int) : List (Slot Int) → List (Slot Int)
  | [] => []
  | .val a :: rest =>
      let m := match acc with | none => a | some b => Max.max b a
      .val m :: pdCummax (some m) rest
  | s :: rest => s :: pdCummax acc rest

/-- `Series.cumulative_max` (source lines 403-405): delegates to
`ser.cummax()`; `skip_nulls` is accepted and ignored. -/
def Series.cumulative_max (c : Series) (_skip_nulls : Bool) : Series :=
  { c with data := pdCummax none c.data }

/-- `Series.fill_nan` (source lines 363-377): the target mask is
`np.isnan(ser).fillna(False)` — true exactly at data-buffer NaN slots —
and those slots of a fresh copy are assigned: the missing marker
(`pd.NA` on an extension column, `np.nan` on a plain one) when the fill
value is the namespace's null sentinel (modelled as `Slot.null`;
`Namespace.is_null` is not among the provided sources, and per the
spec's fill contract it recognises exactly that sentinel), otherwise
the fill value itself. -/
def Series.fill_nan (c : Series) (value : Slot Int) : Series :=
  let ext := c.nativeDtype.isExtensionArrayDtype
  let assign : Slot Int :=
    if value = .null then (if ext then .null else .nan) else value
  { c with data := c.data.map (fun s => if isNanSlot s then assign else s) }

/-- Two's-complement wrap of an integer into `bits` signed bits. -/
def wrapSigned (bits : Nat) (a : Int) : Int :=
  (a + 2 ^ (bits - 1)) % 2 ^ bits - 2 ^ (bits - 1)

/-- Wrap of an integer into `bits` unsigned bits. -/
def wrapUnsigned (bits : Nat) (a : Int) : Int :=
  a % 2 ^ bits

/-- Value conversion performed by the backend's `astype` on one
ordinary payload: fixed-width integer dtypes wrap, the boolean dtypes
map to 0/1 truthiness, the float dtypes keep the (integer-valued)
payload. -/
def PandasDType.astypeVal : PandasDType → Int → Int
  | .int8, a | .nullableInt8, a => wrapSigned 8 a
  | .int16, a | .nullableInt16, a => wrapSigned 16 a
  | .int32, a | .nullableInt32, a => wrapSigned 32 a
  | .int64, a | .nullableInt64, a => wrapSigned 64 a
  | .uint8, a | .nullableUInt8, a => wrapUnsigned 8 a
  | .uint16, a | .nullableUInt16, a => wrapUnsigned 16 a
  | .uint32, a | .nullableUInt32, a => wrapUnsigned 32 a
  | .uint64, a | .nullableUInt64, a => wrapUnsigned 64 a
  | .bool_, a | .nullableBoolean, a => if a = 0 then 0 else 1
  | .float32, a | .float64, a => a
  | .nullableFloat32, a | .nullableFloat64, a => a

/-- `Series.cast` (source lines 427-432): look up the backend dtype
for the requested standard dtype and delegate to `ser.astype`.  (NaN
and missing slots are carried through; converting them to a plain
integer dtype would fail in the backend, a case outside every claim
under test.) -/
def Series.cast (c : Series) (dtype : StandardDType) : Series :=
  let pandas_dtype := map_standard_dtype_to_pandas_dtype dtype
  { c with
    nativeDtype := pandas_dtype
    data := c.data.map (Slot.mapVal pandas_dtype.astypeVal) }

/-- The wrapper's `dtype` property (source lines 100-104): maps the
native series dtype back to the standard vocabulary. -/
def Series.dtypeStd (c : Series) : StandardDType :=
  map_pandas_dtype_to_standard_dtype c.nativeDtype

/-- A wrapped pandas datetime column: payloads are nanoseconds since
the 1970-01-01 epoch (the backend's `datetime64[ns]` representation,
stored in UTC when a time zone is attached); `null` models `NaT`. -/
structure DatetimeSeries where
  name : String
  tz : Option String
  data : List (Slot Int)
deriving DecidableEq, Repr

/-- `np.floor(result.dt.total_seconds())` on a timedelta of `t`
nanoseconds: the floor of `t / 10^9`.  (`/` is euclidean division,
which agrees with floor division for the positive divisors used
throughout; the backend computes this in float64, modelled exactly.) -/
def floorTotalSeconds (t : Int) : Int :=
  t / 1000000000

/-- `result.dt.microseconds` on a timedelta of `t` nanoseconds: the
microseconds component of the normalised timedelta, in `[0, 10^6)`. -/
def tdMicroseconds (t : Int) : Int :=
  (t / 1000) % 1000000

/-- `result.dt.nanoseconds` on a timedelta of `t` nanoseconds: the
sub-microsecond component, in `[0, 1000)`. -/
def tdNanoseconds (t : Int) : Int :=
  t % 1000

/-- The `time_unit="s"` arithmetic of `unix_timestamp`
(source lines 497-501). -/
def unixSeconds (t : Int) : Int :=
  floorTotalSeconds t

/-- The `time_unit="ms"` arithmetic (source lines 502-509):
`floor(total_seconds) * 1000 + microseconds // 1000`. -/
def unixMilliseconds (t : Int) : Int :=
  floorTotalSeconds t * 1000 + tdMicroseconds t / 1000

/-- The `time_unit="us"` arithmetic (source lines 510-515):
`floor(total_seconds) * 1_000_000 + microseconds`. -/
def unixMicroseconds (t : Int) : Int :=
  floorTotalSeconds t * 1000000 + tdMicroseconds t

/-- The `time_unit="ns"` arithmetic (source lines 516-525):
`(floor(total_seconds) * 1_000_000 + microseconds) * 1000 + nanoseconds`,
computed in a 64-bit integer dtype. -/
def unixNanoseconds (t : Int) : Int :=
  (floorTotalSeconds t * 1000000 + tdMicroseconds t) * 1000 + tdNanoseconds t

/-- `Series.unix_timestamp` (source lines 485-529): subtract the
1970-01-01 epoch (a time-zone-aware column is first converted to UTC
and stripped of zone information, which leaves its UTC nanosecond
payloads unchanged), then rescale per the requested unit; an
unrecognised unit hits `raise AssertionError("Got invalid time_unit")`.
The s/ms/us results are float64 series, the ns result an `Int64`
extension series. -/
def DatetimeSeries.unix_timestamp (c : DatetimeSeries) (time_unit : String) :
    Except PyError Series :=
  let result : List (Slot Int) :=
    match c.tz with
    | none => c.data
    | some _ => c.data
  if time_unit = "s" then
    .ok { name := c.name, nativeDtype := .float64
          data := result.map (Slot.mapVal unixSeconds) }
  else if time_unit = "ms" then
    .ok { name := c.name, nativeDtype := .float64
          data := result.map (Slot.mapVal unixMilliseconds) }
  else if time_unit = "us" then
    .ok { name := c.name, nativeDtype := .float64
          data := result.map (Slot.mapVal unixMicroseconds) }
  else if time_unit = "ns" then
    .ok { name := c.name, nativeDtype := .nullableInt64
          data := result.map (Slot.mapVal unixNanoseconds) }
  else
    .error (.assertionError "Got invalid time_unit")

/-- The store of backend-native series objects: each cell is one
`pd.Series`' data.  Python-level aliasing and in-place assignment are
made explicit so that the copy-on-write discipline of the adapter is
observable. -/
abbrev NativeHeap := List (List (Slot Int))

/-- A wrapper whose native series lives at `ref` in the heap. -/
structure SeriesRef where
  name : String
  nativeDtype : PandasDType
  ref : Nat
deriving DecidableEq, Repr

/-- The data-level core of `fill_nan` with a scalar or null fill
value (source lines 363-377). -/
def fillNanData (ext : Bool) (value : Slot Int) (l : List (Slot Int)) :
    List (Slot Int) :=
  let assign : Slot Int :=
    if value = .null then (if ext then .null else .nan) else value
  l.map (fun s => if isNanSlot s then assign else s)

/-- The data-level core of `fill_null` with a scalar fill value
(source lines 379-393). -/
def fillNullData (ext : Bool) (v : Int) (l : List (Slot Int)) :
    List (Slot Int) :=
  if ext then
    l.map (fun s =>
      if pdIsnaSlot true s && !pdSelfNeFillnaFalseSlot s then .val v else s)
  else
    l.map (pdFillnaSlot false v)

/-- pandas `ser.cumsum()`: running sum over the ordinary values; NaN
and missing slots are emitted unchanged and do not update the sum. -/
def pdCumsum (acc : Option Int) : List (Slot Int) → List (Slot Int)
  | [] => []
  | .val a :: rest =>
      let m := match acc with | none => a | some b => b + a
      .val m :: pdCumsum (some m) rest
  | s :: rest => s :: pdCumsum acc rest

/-- pandas `ser.sort_values()`: ordinary values in ascending order,
missing slots moved to the end. -/
def pdSortValues (l : List (Slot Int)) : List (Slot Int) :=
  (sortInts (slotVals l)).map Slot.val ++ l.filter (fun s =>
    match s with | .val _ => false | _ => true)

/-- The `Series` transformations modelled against the explicit heap:
the two operations that assign into a native value (`fill_nan`,
`fill_null`) and a sample of the pure delegations. -/
inductive SeriesOp where
  | opFillNan (value : Slot Int)
  | opFillNull (value : Int)
  | opCumulativeSum
  | opCumulativeMax
  | opSortAscending
  | opAlias (newName : String)
deriving DecidableEq, Repr

/-- One `Series` method call against the heap.  Every backend
delegation returns a fresh native series (a new cell); `fill_nan` and
`fill_null` first take an explicit copy of the wrapped series
(`ser = self.column.copy()`, a fresh cell) and the subsequent in-place
assignment writes only to that copy.  The receiver's cell is never
written. -/
def applyOp (op : SeriesOp) (h : NativeHeap) (c : SeriesRef) :
    NativeHeap × SeriesRef :=
  let ext := c.nativeDtype.isExtensionArrayDtype
  match op with
  | .opFillNan value =>
      let ser := h.getD c.ref []
      let h1 := h ++ [ser]
      let h2 := h1.set h.length (fillNanData ext value ser)
      (h2, { c with ref := h.length })
  | .opFillNull v =>
      let ser := h.getD c.ref []
      let h1 := h ++ [ser]
      let h2 := h1.set h.length (fillNullData ext v ser)
      (h2, { c with ref := h.length })
  | .opCumulativeSum =>
      (h ++ [pdCumsum none (h.getD c.ref [])], { c with ref := h.length })
  | .opCumulativeMax =>
      (h ++ [pdCummax none (h.getD c.ref [])], { c with ref := h.length })
  | .opSortAscending =>
      (h ++ [pdSortValues (h.getD c.ref [])], { c with ref := h.length })
  | .opAlias newName =>
      (h ++ [h.getD c.ref []],
       { name := newName, nativeDtype := c.nativeDtype, ref := h.length })

/-- C4: for every column and every right-hand operand, each of the
reverse operations `__rtruediv__`, `__rfloordiv__`, `__rpow__` and
`__rmod__` fails with a `NotImplementedError`-class error and performs
no computation on the wrapped value: the result is the same error
constant for all inputs. -/
theorem claim_C4_reverse_ops_not_implemented (c : Series) (other : Operand) :
    Series.rtruediv c other = Except.error (PyError.notImplementedError "") ∧
    Series.rfloordiv c other = Except.error (PyError.notImplementedError "") ∧
    Series.rpow c other = Except.error (PyError.notImplementedError "") ∧
    Series.rmod c other = Except.error (PyError.notImplementedError "") :=
  ⟨rfl, rfl, rfl, rfl⟩

/-- C5: for every column and every reduction among sum, mean, std,
var, min, max, any, all, median, prod and n_unique, the result with
`skip_nulls=True` equals the result with `skip_nulls=False`: the
argument has no effect on the output. -/
theorem claim_C5_skip_nulls_has_no_effect (c : Series) (correction : ℚ) :
    Series.sum c true = Series.sum c false ∧
    Series.mean c true = Series.mean c false ∧
    Series.std c correction true = Series.std c correction false ∧
    Series.var c correction true = Series.var c correction false ∧
    Series.min c true = Series.min c false ∧
    Series.max c true = Series.max c false ∧
    Series.any c true = Series.any c false ∧
    Series.all c true = Series.all c false ∧
    Series.median c true = Series.median c false ∧
    Series.prod c true = Series.prod c false ∧
    Series.n_unique c true = Series.n_unique c false :=
  ⟨rfl, rfl, rfl, rfl, rfl, rfl, rfl, rfl, rfl, rfl, rfl⟩

/-- C7: for every column and every supported standard dtype, casting
to the dtype and reading the result's dtype yields that same dtype:
`c.cast(dtype).dtype == dtype`. -/
theorem claim_C7_cast_dtype_roundtrip (c : Series) (dtype : StandardDType) :
    (Series.cast c dtype).dtypeStd = dtype := by
  cases dtype <;> rfl

/-- C9: on the input column `a = [1, 3, None, 2]`, `cumulative_max()`
yields `[1, 3, None, 3]`, and the reverse-order cumulative max
(reverse, apply, reverse again) yields `[3, 3, None, 2]`. -/
theorem claim_C9_cumulative_max_example :
    (Series.cumulative_max
        { name := "a", nativeDtype := PandasDType.nullableInt64
          data := [Slot.val 1, Slot.val 3, Slot.null, Slot.val 2] } true).data
      = [Slot.val 1, Slot.val 3, Slot.null, Slot.val 3] ∧
    (Series.cumulative_max
        { name := "a", nativeDtype := PandasDType.nullableInt64
          data := [Slot.val 1, Slot.val 3, Slot.null, Slot.val 2].reverse } true).data.reverse
      = [Slot.val 3, Slot.val 3, Slot.null, Slot.val 2] := by
  exact ⟨rfl, rfl⟩

theorem unixSeconds_mono (t u : Int) (h : t ≤ u) : unixSeconds t ≤ unixSeconds u := by
  simp only [unixSeconds, floorTotalSeconds]; omega

theorem unixMilliseconds_mono (t u : Int) (h : t ≤ u) :
    unixMilliseconds t ≤ unixMilliseconds u := by
  simp only [unixMilliseconds, floorTotalSeconds, tdMicroseconds]; omega

theorem unixMicroseconds_mono (t u : Int) (h : t ≤ u) :
    unixMicroseconds t ≤ unixMicroseconds u := by
  simp only [unixMicroseconds, floorTotalSeconds, tdMicroseconds]; omega

theorem unixNanoseconds_mono (t u : Int) (h : t ≤ u) :
    unixNanoseconds t ≤ unixNanoseconds u := by
  simp only [unixNanoseconds, floorTotalSeconds, tdMicroseconds, tdNanoseconds]; omega

theorem unixMilliseconds_consistent (t : Int) :
    unixMilliseconds t = unixSeconds t * 1000 + t % 1000000000 / 1000000 := by
  simp only [unixMilliseconds, unixSeconds, floorTotalSeconds, tdMicroseconds]; omega

theorem unixMicroseconds_consistent (t : Int) :
    unixMicroseconds t = unixSeconds t * 1000000 + t % 1000000000 / 1000 := by
  simp only [unixMicroseconds, unixSeconds, floorTotalSeconds, tdMicroseconds]; omega

theorem unixNanoseconds_consistent (t : Int) :
    unixNanoseconds t = unixMicroseconds t * 1000 + t % 1000 := rfl

/-- C3: `unix_timestamp` is monotonically increasing with the
underlying datetime value for each of the four units, and for one
instant the unit results are consistent under the scale factors: the
ms value is the s value times 1000 plus the sub-second remainder in
milliseconds, the us value is the s value times 1_000_000 plus the
microsecond remainder, and the ns value is the us value times 1000
plus the nanosecond remainder. -/
theorem claim_C3_unix_timestamp_monotone_consistent (t u : Int) (h : t ≤ u) :
    (unixSeconds t ≤ unixSeconds u ∧
     unixMilliseconds t ≤ unixMilliseconds u ∧
     unixMicroseconds t ≤ unixMicroseconds u ∧
     unixNanoseconds t ≤ unixNanoseconds u) ∧
    unixMilliseconds t = unixSeconds t * 1000 + t % 1000000000 / 1000000 ∧
    unixMicroseconds t = unixSeconds t * 1000000 + t % 1000000000 / 1000 ∧
    unixNanoseconds t = unixMicroseconds t * 1000 + t % 1000 :=
  ⟨⟨unixSeconds_mono t u h, unixMilliseconds_mono t u h,
    unixMicroseconds_mono t u h, unixNanoseconds_mono t u h⟩,
   unixMilliseconds_consistent t, unixMicroseconds_consistent t,
   unixNanoseconds_consistent t⟩

/-- Witness for C3 at the concrete instants `-1` ns and `10^9 + 1` ns. -/
theorem claim_C3_witness :
    (unixSeconds (-1) ≤ unixSeconds 1000000001 ∧
     unixMilliseconds (-1) ≤ unixMilliseconds 1000000001 ∧
     unixMicroseconds (-1) ≤ unixMicroseconds 1000000001 ∧
     unixNanoseconds (-1) ≤ unixNanoseconds 1000000001) ∧
    unixMilliseconds (-1) = unixSeconds (-1) * 1000 + (-1) % 1000000000 / 1000000 ∧
    unixMicroseconds (-1) = unixSeconds (-1) * 1000000 + (-1) % 1000000000 / 1000 ∧
    unixNanoseconds (-1) = unixMicroseconds (-1) * 1000 + (-1) % 1000 :=
  claim_C3_unix_timestamp_monotone_consistent (-1) 1000000001 (by decide)

/-- C8: `unix_timestamp` with a `time_unit` outside {s, ms, us, ns}
fails with the `AssertionError`-class error, and for each of the four
recognised units it returns a result without raising that error. -/
theorem claim_C8_unix_timestamp_time_unit (c : DatetimeSeries) (time_unit : String) :
    (time_unit ∉ (["s", "ms", "us", "ns"] : List String) →
      DatetimeSeries.unix_timestamp c time_unit
        = Except.error (PyError.assertionError "Got invalid time_unit")) ∧
    (time_unit ∈ (["s", "ms", "us", "ns"] : List String) →
      ∃ r, DatetimeSeries.unix_timestamp c time_unit = Except.ok r) := by
  constructor
  · intro hmem
    simp only [List.mem_cons, List.mem_singleton, not_or] at hmem
    obtain ⟨h1, h2, h3, h4⟩ := hmem
    simp [DatetimeSeries.unix_timestamp, h1, h2, h3, h4]
  · intro hmem
    simp only [List.mem_cons, List.not_mem_nil, or_false] at hmem
    rcases hmem with h | h | h | h <;> subst h <;>
      simp [DatetimeSeries.unix_timestamp]

/-- Witness for C8 on a one-element datetime column: the unrecognised
unit `"x"` hits the assertion, the recognised unit `"s"` succeeds. -/
theorem claim_C8_witness :
    DatetimeSeries.unix_timestamp ⟨"t", none, [Slot.val 0]⟩ "x"
      = Except.error (PyError.assertionError "Got invalid time_unit") ∧
    ∃ r, DatetimeSeries.unix_timestamp ⟨"t", none, [Slot.val 0]⟩ "s" = Except.ok r :=
  ⟨(claim_C8_unix_timestamp_time_unit ⟨"t", none, [Slot.val 0]⟩ "x").1 (by decide),
   (claim_C8_unix_timestamp_time_unit ⟨"t", none, [Slot.val 0]⟩ "s").2 (by decide)⟩

/-- C1: for every column `c` and scalar `v`, `c.fill_null(v).is_null()`
is all-false, and every slot at a position that was not null in `c`
(in particular a floating-NaN slot of an extension/nullable-typed
column) is unchanged. -/
theorem claim_C1_fill_null (c : Series) (v : Int) (s : Series)
    (h : Series.fill_null c (Operand.scalar v) = Except.ok s) :
    (Series.is_null s).data = List.replicate s.data.length false ∧
    ∀ (i : Nat) (sl : Slot Int), c.data[i]? = some sl →
      pdIsnaSlot c.nativeDtype.isExtensionArrayDtype sl = false →
      s.data[i]? = some sl := by
  by_cases hext : c.nativeDtype.isExtensionArrayDtype
  · simp only [Series.fill_null, validate_column_comparand, hext, if_true,
      Bind.bind, Except.bind, pure, Except.pure, Except.ok.injEq] at h
    subst h
    refine ⟨?_, ?_⟩
    · apply List.eq_replicate_iff.mpr
      refine ⟨by simp [Series.is_null], ?_⟩
      intro b hb
      simp only [Series.is_null, hext, List.map_map, List.mem_map] at hb
      obtain ⟨sl, _, rfl⟩ := hb
      cases sl <;> simp [pdIsnaSlot, pdSelfNeFillnaFalseSlot]
    · intro i sl hi hna
      simp only [List.getElem?_map, hi, Option.map_some]
      cases sl <;> simp_all [pdIsnaSlot, pdSelfNeFillnaFalseSlot]
  · simp only [Series.fill_null, validate_column_comparand, hext, if_false,
      Bind.bind, Except.bind, pure, Except.pure, Bool.false_eq_true, if_false,
      Except.ok.injEq] at h
    subst h
    refine ⟨?_, ?_⟩
    · apply List.eq_replicate_iff.mpr
      refine ⟨by simp [Series.is_null], ?_⟩
      intro b hb
      simp only [Series.is_null, hext, List.map_map, List.mem_map] at hb
      obtain ⟨sl, _, rfl⟩ := hb
      cases sl <;> simp [pdIsnaSlot, pdFillnaSlot]
    · intro i sl hi hna
      simp only [List.getElem?_map, hi, Option.map_some]
      cases sl <;> simp_all [pdIsnaSlot, pdFillnaSlot]

/-- Witness for C1 on the extension column `[1, NA, NaN]` filled with
`7`: the result's `is_null` is all-false and the NaN slot at position
2 is untouched. -/
theorem claim_C1_witness :
    (Series.is_null
        { name := "a", nativeDtype := PandasDType.nullableFloat64
          data := [Slot.val 1, Slot.val 7, Slot.nan] }).data
      = List.replicate 3 false ∧
    ({ name := "a", nativeDtype := PandasDType.nullableFloat64
       data := [Slot.val 1, Slot.val 7, Slot.nan] } : Series).data[2]?
      = some Slot.nan :=
  ⟨(claim_C1_fill_null
      { name := "a", nativeDtype := PandasDType.nullableFloat64
        data := [Slot.val 1, Slot.null, Slot.nan] } 7 _ rfl).1,
   (claim_C1_fill_null
      { name := "a", nativeDtype := PandasDType.nullableFloat64
        data := [Slot.val 1, Slot.null, Slot.nan] } 7 _ rfl).2 2 Slot.nan rfl rfl⟩

/-- C2: for an extension/nullable-typed column containing both a
true-null slot and a floating-NaN slot, `is_nan()` and `is_null()` are
disjoint: no position is true in both. -/
theorem claim_C2_is_nan_is_null_disjoint (c : Series) (i : Nat)
    (hext : c.nativeDtype.isExtensionArrayDtype = true)
    (_hnull : Slot.null ∈ c.data) (_hnan : Slot.nan ∈ c.data) :
    ¬((Series.is_nan c).data[i]? = some true ∧
      (Series.is_null c).data[i]? = some true) := by
  rintro ⟨h1, h2⟩
  simp only [Series.is_nan, Series.is_null, hext, if_true, List.getElem?_map] at h1 h2
  obtain ⟨sl, hsl, hfa⟩ := Option.map_eq_some'.mp h1
  obtain ⟨sl', hsl', hfa'⟩ := Option.map_eq_some'.mp h2
  rw [hsl] at hsl'
  cases hsl'
  cases sl <;> simp_all [pdSelfNeFillnaFalseSlot, pdIsnaSlot]

/-- Witness for C2 on the extension column `[1, NA, NaN]`, at position
2 (the NaN slot, where `is_nan` is true). -/
theorem claim_C2_witness :
    ¬((Series.is_nan
        { name := "a", nativeDtype := PandasDType.nullableFloat64
          data := [Slot.val 1, Slot.null, Slot.nan] }).data[2]? = some true ∧
      (Series.is_null
        { name := "a", nativeDtype := PandasDType.nullableFloat64
          data := [Slot.val 1, Slot.null, Slot.nan] }).data[2]? = some true) :=
  claim_C2_is_nan_is_null_disjoint
    { name := "a", nativeDtype := PandasDType.nullableFloat64
      data := [Slot.val 1, Slot.null, Slot.nan] } 2 rfl (by decide) (by decide)

/-- C6: every modelled `Series` operation leaves every native series
already in the heap — in particular the receiver's — unchanged, and
returns a wrapper around a freshly allocated native value; `fill_nan`
and `fill_null`, the only operations that assign into a native value,
write only to their fresh copy. -/
theorem claim_C6_no_mutation (op : SeriesOp) (h : NativeHeap) (c : SeriesRef)
    (r : Nat) (hc : c.ref < h.length) (hr : r < h.length) :
    (applyOp op h c).1[r]? = h[r]? ∧
    (applyOp op h c).2.ref = h.length ∧
    (applyOp op h c).2.ref ≠ c.ref := by
  have hne : h.length ≠ r := by omega
  cases op <;> refine ⟨?_, rfl, by simp only [applyOp]; omega⟩ <;>
    simp only [applyOp] <;>
    first
      | rw [List.getElem?_set_ne hne, List.getElem?_append, if_pos hr]
      | rw [List.getElem?_append, if_pos hr]

/-- Witness for C6: `fill_nan(5)` on a heap holding the single plain
float column `[1.0, NaN]`. -/
theorem claim_C6_witness :
    (applyOp (SeriesOp.opFillNan (Slot.val 5))
        [[Slot.val 1, Slot.nan]] ⟨"a", PandasDType.float64, 0⟩).1[0]?
      = ([[Slot.val 1, Slot.nan]] : NativeHeap)[0]? ∧
    (applyOp (SeriesOp.opFillNan (Slot.val 5))
        [[Slot.val 1, Slot.nan]] ⟨"a", PandasDType.float64, 0⟩).2.ref = 1 ∧
    (applyOp (SeriesOp.opFillNan (Slot.val 5))
        [[Slot.val 1, Slot.nan]] ⟨"a", PandasDType.float64, 0⟩).2.ref ≠ 0 :=
  claim_C6_no_mutation (SeriesOp.opFillNan (Slot.val 5))
    [[Slot.val 1, Slot.nan]] ⟨"a", PandasDType.float64, 0⟩ 0
    (by decide) (by decide)

theorem slotBin_sub_negOne_mul (a b : Slot Int) :
    slotBin (fun x y => x * y) (slotBin (fun x y => x - y) a b) (Slot.val (-1))
      = slotBin (fun x y => x - y) b a := by
  cases a <;> cases b <;> simp [slotBin]

theorem zipWith_sub_negOne_mul (l m : List (Slot Int)) :
    (List.zipWith (slotBin (fun x y => x - y)) l m).map
        (fun s => slotBin (fun x y => x * y) s (Slot.val (-1)))
      = List.zipWith (fun x s => slotBin (fun x y => x - y) x s) m l := by
  induction l generalizing m with
  | nil => cases m <;> rfl
  | cons a l ih =>
      cases m with
      | nil => rfl
      | cons b m => simp [List.zipWith, slotBin_sub_negOne_mul, ih]

/-- C10: for every column and every operand, the reflected subtraction
`__rsub__` — implemented as `-1 * (c - v)` — computes exactly the
elementwise reversed difference `v - c` (and fails in exactly the same
cases as the direct validation of the operand). -/
theorem claim_C10_rsub_is_reversed_sub (c : Series) (other : Operand) :
    Except.map Series.data (Series.rsub c other)
      = specReversedDifference c other := by
  cases other with
  | scalar v =>
      simp only [Series.rsub, Series.sub, Series.mul, validate_column_comparand,
        specReversedDifference, Bind.bind, Except.bind, pure, Except.pure,
        Except.map, zipComparand, List.map_map, Except.ok.injEq]
      apply List.map_congr_left
      intro a _
      exact slotBin_sub_negOne_mul a (Slot.val v)
  | column s =>
      by_cases hl : s.data.length = c.data.length
      · simp only [Series.rsub, Series.sub, Series.mul, validate_column_comparand,
          hl, if_true, specReversedDifference, Bind.bind, Except.bind, pure,
          Except.pure, Except.map, zipComparand, Except.ok.injEq]
        exact zipWith_sub_negOne_mul c.data s.data
      · simp only [Series.rsub, Series.sub, Series.mul, validate_column_comparand,
          hl, if_false, specReversedDifference, Bind.bind, Except.bind, pure,
          Except.pure, Except.map]
